import Mathlib

/-!
Shallow embedding of the laser-control frontend logic of the Control_System
repository, together with proofs about it.

Numbers of the JavaScript source are modelled as exact rationals, and
JavaScript Math.floor as the integer floor on the rationals.

The definitions come first: the pulse-parameter coupling logic of the laser
settings panel (the duty-cycle formula, the per-parameter clamp, and the two
coupled setters), then the scan-mode panel (unit conversion, the range
validator, the multispectral entry list operations, the start-scan handler,
and the derived loop counter driven by device telemetry).  The theorems
follow, helper lemmas before the claim theorems they serve.
-/

namespace ControlSystem

/-- State of the two coupled laser pulse parameters, pulse rate in Hz and
pulse width in ns.  The surrounding component state has further fields that
the two setters never touch; only the coupled pair is modelled. -/
structure LaserParams where
  pulseRate : ℚ
  pulseWidth : ℚ
  deriving DecidableEq, Repr

/-- Initial component state of the laser settings panel: pulse rate
2,000,000 Hz and pulse width 150 ns. -/
def initialLaserParams : LaserParams := ⟨2000000, 150⟩

/-- Duty cycle in percent: rate times width over 1e9, times 100. -/
def calculateDutyCycle (pulseRate pulseWidth : ℚ) : ℚ :=
  pulseRate * pulseWidth / 1000000000 * 100

/-- Per-parameter clamp of the laser settings panel.  Each case checks the
incoming value against both bounds, exactly as the source does. -/
def validateAndCorrectParameter (value : ℚ) (param : String) : ℚ :=
  if param = "temperature" then
    let c1 := if value < 17 then (17 : ℚ) else value
    if value > 23 then 23 else c1
  else if param = "pulseRate" then
    let c1 := if value < 10 then (10 : ℚ) else value
    if value > 3000000 then 3000000 else c1
  else if param = "pulseWidth" then
    let c1 := if value < 20 then (20 : ℚ) else value
    if value > 1000 then 1000 else c1
  else if param = "pulsedCurrent" then
    let c1 := if value < 100 then (100 : ℚ) else value
    if value > 1000 then 1000 else c1
  else if param = "cwCurrent" then
    let c1 := if value < 100 then (100 : ℚ) else value
    if value > 775 then 775 else c1
  else if param = "internalStepTime" ∨ param = "internalStepDelay" then
    let c1 := if value < 0 then (0 : ℚ) else value
    if value > 4000000 then 4000000 else c1
  else value

/-- Setter for the pulse rate.  Clamps the new rate, then if the duty cycle
with the current width would exceed 30 percent, lowers the width to the
largest width keeping the duty cycle at 30 percent (clamped to the width
bounds); if even the 20 ns minimum width would exceed 30 percent, falls back
to reducing the rate with the width fixed at 20 ns. -/
def handlePulseRateChange (st : LaserParams) (newPulseRate : ℚ) : LaserParams :=
  let correctedPulseRate := validateAndCorrectParameter newPulseRate "pulseRate"
  let newDutyCycle := calculateDutyCycle correctedPulseRate st.pulseWidth
  if newDutyCycle > 30 then
    let maxPulseWidth : ℤ := ⌊(30 * 1000000000 : ℚ) / (correctedPulseRate * 100)⌋
    let finalPulseWidth : ℚ := max 20 (min (maxPulseWidth : ℚ) 1000)
    if calculateDutyCycle correctedPulseRate 20 > 30 then
      ⟨((⌊(30 * 1000000000 : ℚ) / (20 * 100)⌋ : ℤ) : ℚ), 20⟩
    else
      ⟨correctedPulseRate, finalPulseWidth⟩
  else
    ⟨correctedPulseRate, st.pulseWidth⟩

/-- Setter for the pulse width, the mirror image of the rate setter: clamps
the new width, then if the duty cycle with the current rate would exceed 30
percent, lowers the rate (clamped to the rate bounds); if even the 10 Hz
minimum rate would exceed 30 percent, falls back to reducing the width with
the rate fixed at 10 Hz. -/
def handlePulseWidthChange (st : LaserParams) (newPulseWidth : ℚ) : LaserParams :=
  let correctedPulseWidth := validateAndCorrectParameter newPulseWidth "pulseWidth"
  let newDutyCycle := calculateDutyCycle st.pulseRate correctedPulseWidth
  if newDutyCycle > 30 then
    let maxPulseRate : ℤ := ⌊(30 * 1000000000 : ℚ) / (correctedPulseWidth * 100)⌋
    let finalPulseRate : ℚ := max 10 (min (maxPulseRate : ℚ) 3000000)
    if calculateDutyCycle 10 correctedPulseWidth > 30 then
      ⟨10, ((⌊(30 * 1000000000 : ℚ) / (10 * 100)⌋ : ℤ) : ℚ)⟩
    else
      ⟨finalPulseRate, correctedPulseWidth⟩
  else
    ⟨st.pulseRate, correctedPulseWidth⟩

/-- One user edit of the coupled pulse pair: either a pulse-rate commit or a
pulse-width commit. -/
inductive PulseCall where
  | setRate (v : ℚ)
  | setWidth (v : ℚ)
  deriving DecidableEq, Repr

/-- Apply one pulse-parameter setter call to the component state. -/
def applyPulseCall (st : LaserParams) : PulseCall → LaserParams
  | .setRate v => handlePulseRateChange st v
  | .setWidth v => handlePulseWidthChange st v

/-- Run a sequence of setter calls from the initial component state. -/
def runPulseCalls (calls : List PulseCall) : LaserParams :=
  calls.foldl applyPulseCall initialLaserParams

/-- The pulse-pair invariant maintained by the two setters: both parameters
within their absolute bounds and duty cycle at most 30 percent. -/
def PulsePairOK (st : LaserParams) : Prop :=
  10 ≤ st.pulseRate ∧ st.pulseRate ≤ 3000000 ∧
    20 ≤ st.pulseWidth ∧ st.pulseWidth ≤ 1000 ∧
    calculateDutyCycle st.pulseRate st.pulseWidth ≤ 30

/-- Active display unit of the scan panel: wavenumber (cm-1) or
wavelength (micron). -/
inductive Units where
  | cm1
  | um
  deriving DecidableEq, Repr

/-- Convert a wavenumber in cm-1 to a wavelength in microns. -/
def convertToMicrons (wavenum : ℚ) : ℚ := 10000 / wavenum

/-- Convert a wavelength in microns to a wavenumber in cm-1. -/
def convertToWavenumber (microns : ℚ) : ℚ := 10000 / microns

/-- Model of the JavaScript expression Number(x.toFixed(2)) on the
nonnegative values it is applied to here: round to the nearest multiple of
one hundredth, halves rounded up. -/
def roundTo2 (q : ℚ) : ℚ := ((⌊q * 100 + 1 / 2⌋ : ℤ) : ℚ) / 100

/-- Field selector of the range validator: the wavenumber branch clamps,
the step-size branch returns the value unchanged. -/
inductive VField where
  | wavenumber
  | stepSize
  deriving DecidableEq, Repr

/-- Range validator of the scan panel.  For the wavenumber field the bounds
are 1638.81 to 2077.27 cm-1, or their conversions (re-sorted) when the
active unit is microns; out-of-range values are replaced by the violated
bound, and micron results are limited to two decimals. -/
def validateAndCorrectValue (units : Units) (value : ℚ) (field : VField) : ℚ :=
  if field = VField.wavenumber then
    let mn := if units = Units.cm1 then (1638.81 : ℚ) else convertToMicrons 2077.27
    let mx := if units = Units.cm1 then (2077.27 : ℚ) else convertToMicrons 1638.81
    let c1 := if value < mn then mn else value
    let c2 := if value > mx then mx else c1
    if units = Units.um then roundTo2 c2 else c2
  else value

/-- One row of the multispectral entry table. -/
structure MultiSpectralEntry where
  id : ℚ
  wavenumber : ℚ
  dwellTime : ℚ
  offTime : ℚ
  deriving DecidableEq, Repr

/-- Field selector for updates of a multispectral entry, one constructor per
field of the row type. -/
inductive MSField where
  | id
  | wavenumber
  | dwellTime
  | offTime
  deriving DecidableEq, Repr

/-- Read the selected field of an entry. -/
def getMSField (f : MSField) (e : MultiSpectralEntry) : ℚ :=
  match f with
  | .id => e.id
  | .wavenumber => e.wavenumber
  | .dwellTime => e.dwellTime
  | .offTime => e.offTime

/-- Overwrite the selected field of an entry, the computed-key spread of the
source. -/
def setMSField (f : MSField) (v : ℚ) (e : MultiSpectralEntry) : MultiSpectralEntry :=
  match f with
  | .id => ⟨v, e.wavenumber, e.dwellTime, e.offTime⟩
  | .wavenumber => ⟨e.id, v, e.dwellTime, e.offTime⟩
  | .dwellTime => ⟨e.id, e.wavenumber, v, e.offTime⟩
  | .offTime => ⟨e.id, e.wavenumber, e.dwellTime, v⟩

/-- Remove handler of the multispectral table: keep every entry whose id
differs from the given one. -/
def removeMultiSpectralEntry (entries : List MultiSpectralEntry) (eid : ℚ) :
    List MultiSpectralEntry :=
  entries.filter fun e => e.id ≠ eid

/-- Update handler of the multispectral table: clamp a wavenumber value to
the unit-aware range (limiting microns to two decimals), then overwrite the
selected field of the entry whose id matches. -/
def updateMultiSpectralEntry (units : Units) (entries : List MultiSpectralEntry)
    (eid : ℚ) (field : MSField) (value : ℚ) : List MultiSpectralEntry :=
  let correctedValue :=
    if field = MSField.wavenumber then
      let mn := if units = Units.cm1 then (1638.81 : ℚ) else convertToMicrons 2077.27
      let mx := if units = Units.cm1 then (2077.27 : ℚ) else convertToMicrons 1638.81
      let c1 := if value < mn then mn else value
      let c2 := if value > mx then mx else c1
      if units = Units.um then roundTo2 c2 else c2
    else value
  entries.map fun e => if e.id = eid then setMSField field correctedValue e else e

/-- The corrected value computed by the update handler, factored out of
the handler for reasoning. -/
def msCorrectedValue (units : Units) (field : MSField) (value : ℚ) : ℚ :=
  if field = MSField.wavenumber then
    let mn := if units = Units.cm1 then (1638.81 : ℚ) else convertToMicrons 2077.27
    let mx := if units = Units.cm1 then (2077.27 : ℚ) else convertToMicrons 1638.81
    let c1 := if value < mn then mn else value
    let c2 := if value > mx then mx else c1
    if units = Units.um then roundTo2 c2 else c2
  else value

/-- Sweep and step scan settings of the panel. -/
structure ScanSettings where
  startWavenumber : ℚ
  endWavenumber : ℚ
  stepSize : ℚ
  dwellTime : ℚ
  scanSpeed : ℚ
  numberOfScans : ℚ
  infiniteScans : Bool
  bidirectionalScanning : Bool
  deriving DecidableEq, Repr

/-- A request issued to the external device collaborator by the start-scan
handler, carrying the payload the handler builds. -/
inductive DeviceCall where
  | startSweepScan (startWavenumber endWavenumber scanSpeed numberOfScans : ℚ)
      (bidirectionalScanning : Bool)
  | startStepScan (startWavenumber endWavenumber stepSize dwellTime numberOfScans : ℚ)
  | startMultispectralScan (wavelengthList : List (ℚ × ℚ × ℚ)) (numberOfScans : ℚ)
      (keepLaserOnBetweenSteps : Bool)
  deriving DecidableEq, Repr

/-- Start-scan handler.  An error value models a thrown exception, an ok
value carries the device call made, if any (the finiteness test on the scan
count is always true over the rationals).  In multispectral mode the handler
requires at least two entries before any device call, maps the entries to
wavenumber payloads (converting back from microns when that unit is active),
and turns the infinite flag or a non-positive count into the documented
sentinels. -/
def handleStartScan (selectedScanMode : String) (scanSettings : ScanSettings)
    (units : Units) (multiSpectralEntries : List MultiSpectralEntry)
    (numberOfScans : ℚ) (infiniteScans : Bool) (keepLaserOnBetweenSteps : Bool) :
    Except String (Option DeviceCall) :=
  if selectedScanMode = "sweep" then
    .ok (some (.startSweepScan scanSettings.startWavenumber scanSettings.endWavenumber
      scanSettings.scanSpeed
      (if scanSettings.infiniteScans then 0 else scanSettings.numberOfScans)
      scanSettings.bidirectionalScanning))
  else if selectedScanMode = "step" then
    .ok (some (.startStepScan scanSettings.startWavenumber scanSettings.endWavenumber
      scanSettings.stepSize scanSettings.dwellTime scanSettings.numberOfScans))
  else if selectedScanMode = "multispectral" then
    if multiSpectralEntries.length < 2 then
      .error "Add at least two entries before starting a multispectral scan"
    else
      let wavelengthList := multiSpectralEntries.map fun e =>
        ((if units = Units.um then convertToWavenumber e.wavenumber else e.wavenumber),
          e.dwellTime, e.offTime)
      let scans := if infiniteScans then 0 else if numberOfScans > 0 then numberOfScans else 1
      .ok (some (.startMultispectralScan wavelengthList scans keepLaserOnBetweenSteps))
  else .ok none

/-- One device status sample as read by the loop-count effect: the
in-progress flag and the optional percent, raw scan number and active mode.
An absent or non-numeric percent or scan number is none, and an absent or
empty mode string (coerced to null by the effect) is none. -/
structure TelemetrySample where
  scanInProgress : Bool
  currentScanPercent : Option ℚ
  currentScanNumber : Option ℚ
  currentScanMode : Option String
  deriving DecidableEq, Repr

/-- State carried by the loop-count effect across samples: the displayed
loop count and the five refs it keeps. -/
structure ScanLoopState where
  loopCount : ℤ
  prevPercent : Option ℚ
  prevInProgress : Bool
  msBaselineScanNum : Option ℚ
  msElements : ℚ
  prevMode : Option String
  deriving DecidableEq, Repr

/-- Initial loop-count state of the panel. -/
def initialScanLoopState : ScanLoopState := ⟨0, none, false, none, 0, none⟩

/-- One run of the loop-count effect on a fresh telemetry sample.  The
argument multiSpectralEntriesLength is the live length of the entry list at
that run.  Queued loop-count updates within one run follow the React batching
order: the reset writes 0, a start writes 1, the wraparound heuristic
increments the pending value, while the multispectral index heuristic
compares its candidate against the loop count the run rendered with and
overwrites the pending value when strictly larger. -/
def scanLoopStep (multiSpectralEntriesLength : ℕ) (st : ScanLoopState)
    (t : TelemetrySample) : ScanLoopState :=
  let curInProgress := t.scanInProgress
  let curPercent := t.currentScanPercent
  let curScanNum := t.currentScanNumber
  let activeMode := t.currentScanMode
  -- reset on scan stop or mode change
  let r1 :=
    if curInProgress = false ∨
        (st.prevMode ≠ none ∧ activeMode ≠ none ∧ st.prevMode ≠ activeMode) then
      ((0 : ℤ), (none : Option ℚ), (none : Option ℚ))
    else (st.loopCount, st.prevPercent, st.msBaselineScanNum)
  let lc1 := r1.1
  let pp1 := r1.2.1
  let base1 := r1.2.2
  let r2 :=
    if curInProgress = true then
      if st.prevInProgress = false then
        -- scan start: loop count 1, capture multispectral baseline and element count
        if activeMode = some "multispectral" then
          ((1 : ℤ), some (curScanNum.getD 0),
            (if multiSpectralEntriesLength = 0 then (1 : ℚ)
              else (multiSpectralEntriesLength : ℚ)))
        else ((1 : ℤ), base1, st.msElements)
      else
        -- heuristic 1: percent wraparound with relaxed thresholds
        let lcA :=
          if pp1 ≠ none ∧ curPercent ≠ none then
            let prevP := pp1.getD 0
            let curP := curPercent.getD 0
            if (prevP > 80 ∧ curP < 30) ∨ prevP - curP > 50 then lc1 + 1 else lc1
          else lc1
        -- heuristic 2: multispectral loops from the scan number delta
        if activeMode = some "multispectral" ∧ curScanNum ≠ none then
          let csn := curScanNum.getD 0
          let base := base1.getD csn
          let elemsRaw := if st.msElements ≠ 0 then st.msElements
            else if multiSpectralEntriesLength ≠ 0 then (multiSpectralEntriesLength : ℚ)
            else 1
          let elems := max 1 elemsRaw
          let baseB := if base1 = none then some base else base1
          if csn ≥ base then
            let loopsByIdx := ⌊(csn - base) / elems⌋ + 1
            ((if loopsByIdx > st.loopCount then loopsByIdx else lcA), baseB, st.msElements)
          else (lcA, baseB, st.msElements)
        else (lcA, base1, st.msElements)
    else (lc1, base1, st.msElements)
  { loopCount := r2.1
    prevPercent := if curPercent ≠ none then curPercent else pp1
    prevInProgress := curInProgress
    msBaselineScanNum := r2.2.1
    msElements := r2.2.2
    prevMode := activeMode }

/-- States after each sample of a telemetry list, from a given state. -/
def scanLoopStates (len : ℕ) (st : ScanLoopState) :
    List TelemetrySample → List ScanLoopState
  | [] => []
  | t :: ts =>
    let st2 := scanLoopStep len st t
    st2 :: scanLoopStates len st2 ts

/-- Displayed loop counts after each sample of a telemetry list, from the
initial panel state. -/
def scanLoopCounts (len : ℕ) (ts : List TelemetrySample) : List ℤ :=
  (scanLoopStates len initialScanLoopState ts).map ScanLoopState.loopCount

/-- An in-progress multispectral telemetry sample carrying the given raw
scan number and no percent. -/
def msSample (n : ℚ) : TelemetrySample := ⟨true, none, some n, some "multispectral"⟩

/-- An in-progress sweep telemetry sample carrying the given percent and no
scan number. -/
def sweepSample (p : ℚ) : TelemetrySample := ⟨true, some p, none, some "sweep"⟩

/-- Invariant along an in-progress multispectral telemetry trace: the last
observed mode is multispectral (or nothing yet), and before the first
in-progress sample the loop count is at most 0. -/
def MsTraceOK (st : ScanLoopState) : Prop :=
  (st.prevMode = none ∨ st.prevMode = some "multispectral") ∧
    (st.prevInProgress = false → st.loopCount ≤ 0)

lemma validate_pulseRate_eq (v : ℚ) :
    validateAndCorrectParameter v "pulseRate" = min (max v 10) 3000000 := by
  simp only [validateAndCorrectParameter, String.reduceEq, if_false, if_true, reduceIte,
    min_def, max_def]
  split_ifs <;> linarith

lemma validate_pulseWidth_eq (v : ℚ) :
    validateAndCorrectParameter v "pulseWidth" = min (max v 20) 1000 := by
  simp only [validateAndCorrectParameter, String.reduceEq, if_false, if_true, reduceIte,
    min_def, max_def]
  split_ifs <;> linarith

lemma validate_pulseRate_bounds (v : ℚ) :
    10 ≤ validateAndCorrectParameter v "pulseRate" ∧
      validateAndCorrectParameter v "pulseRate" ≤ 3000000 := by
  rw [validate_pulseRate_eq]
  constructor
  · exact le_min (le_max_right v 10) (by norm_num)
  · exact min_le_right _ _

lemma validate_pulseWidth_bounds (v : ℚ) :
    20 ≤ validateAndCorrectParameter v "pulseWidth" ∧
      validateAndCorrectParameter v "pulseWidth" ≤ 1000 := by
  rw [validate_pulseWidth_eq]
  constructor
  · exact le_min (le_max_right v 20) (by norm_num)
  · exact min_le_right _ _

lemma handlePulseRateChange_ok (st : LaserParams) (v : ℚ)
    (hw1 : 20 ≤ st.pulseWidth) (hw2 : st.pulseWidth ≤ 1000) :
    PulsePairOK (handlePulseRateChange st v) := by
  obtain ⟨hr1, hr2⟩ := validate_pulseRate_bounds v
  set r := validateAndCorrectParameter v "pulseRate" with hrdef
  have hr0 : (0 : ℚ) < r := by linarith
  simp only [handlePulseRateChange, ← hrdef]
  split_ifs with hd hfb
  · -- the rate-reduction fallback is unreachable: duty at width 20 is at most 6
    exfalso
    simp only [calculateDutyCycle] at hfb
    linarith
  · -- width-adjust branch
    set f : ℤ := ⌊(30 * 1000000000 : ℚ) / (r * 100)⌋ with hfdef
    have hf_le : (f : ℚ) ≤ (30 * 1000000000 : ℚ) / (r * 100) := Int.floor_le _
    have hf_ge : (100 : ℤ) ≤ f := by
      rw [hfdef, Int.le_floor]
      rw [le_div_iff (by positivity)]
      push_cast
      linarith
    have hf_geQ : (100 : ℚ) ≤ (f : ℚ) := by exact_mod_cast hf_ge
    have h20min : (20 : ℚ) ≤ min (f : ℚ) 1000 := le_min (by linarith) (by norm_num)
    have hmax : max (20 : ℚ) (min (f : ℚ) 1000) = min (f : ℚ) 1000 := max_eq_right h20min
    refine ⟨hr1, hr2, ?_, ?_, ?_⟩
    · simpa [hmax] using h20min
    · simp [hmax]
    · simp only [PulsePairOK, calculateDutyCycle, hmax]
      have hwle : min (f : ℚ) 1000 ≤ (30 * 1000000000 : ℚ) / (r * 100) :=
        le_trans (min_le_left _ _) hf_le
      have hprod : r * min (f : ℚ) 1000 ≤ 300000000 := by
        have := mul_le_mul_of_nonneg_left hwle (le_of_lt hr0)
        have heq : r * ((30 * 1000000000 : ℚ) / (r * 100)) = 300000000 := by
          field_simp
          ring
        linarith
      linarith
  · -- no adjustment needed: the clamped rate with the current width stays at or below 30
    push_neg at hd
    exact ⟨hr1, hr2, hw1, hw2, hd⟩

lemma handlePulseWidthChange_ok (st : LaserParams) (v : ℚ)
    (hr1 : 10 ≤ st.pulseRate) (hr2 : st.pulseRate ≤ 3000000) :
    PulsePairOK (handlePulseWidthChange st v) := by
  obtain ⟨hw1, hw2⟩ := validate_pulseWidth_bounds v
  set w := validateAndCorrectParameter v "pulseWidth" with hwdef
  have hw0 : (0 : ℚ) < w := by linarith
  simp only [handlePulseWidthChange, ← hwdef]
  split_ifs with hd hfb
  · -- the width-reduction fallback is unreachable: duty at rate 10 is at most 0.01
    exfalso
    simp only [calculateDutyCycle] at hfb
    linarith
  · -- rate-adjust branch
    set f : ℤ := ⌊(30 * 1000000000 : ℚ) / (w * 100)⌋ with hfdef
    have hf_le : (f : ℚ) ≤ (30 * 1000000000 : ℚ) / (w * 100) := Int.floor_le _
    have hf_ge : (300000 : ℤ) ≤ f := by
      rw [hfdef, Int.le_floor]
      rw [le_div_iff (by positivity)]
      push_cast
      linarith
    have hf_geQ : (300000 : ℚ) ≤ (f : ℚ) := by exact_mod_cast hf_ge
    have h10min : (10 : ℚ) ≤ min (f : ℚ) 3000000 := le_min (by linarith) (by norm_num)
    have hmax : max (10 : ℚ) (min (f : ℚ) 3000000) = min (f : ℚ) 3000000 := max_eq_right h10min
    refine ⟨?_, ?_, hw1, hw2, ?_⟩
    · simpa [hmax] using h10min
    · simp [hmax]
    · simp only [PulsePairOK, calculateDutyCycle, hmax]
      have hrle : min (f : ℚ) 3000000 ≤ (30 * 1000000000 : ℚ) / (w * 100) :=
        le_trans (min_le_left _ _) hf_le
      have hprod : min (f : ℚ) 3000000 * w ≤ 300000000 := by
        have := mul_le_mul_of_nonneg_left hrle (le_of_lt hw0)
        have heq : w * ((30 * 1000000000 : ℚ) / (w * 100)) = 300000000 := by
          field_simp
          ring
        nlinarith
      linarith
  · -- no adjustment needed
    push_neg at hd
    exact ⟨hr1, hr2, hw1, hw2, hd⟩

lemma applyPulseCall_ok (st : LaserParams) (c : PulseCall) (h : PulsePairOK st) :
    PulsePairOK (applyPulseCall st c) := by
  obtain ⟨h1, h2, h3, h4, h5⟩ := h
  cases c with
  | setRate v => exact handlePulseRateChange_ok st v h3 h4
  | setWidth v => exact handlePulseWidthChange_ok st v h1 h2

lemma foldl_applyPulseCall_ok (calls : List PulseCall) :
    ∀ st : LaserParams, PulsePairOK st → PulsePairOK (calls.foldl applyPulseCall st) := by
  induction calls with
  | nil => intro st h; exact h
  | cons c cs ih => intro st h; exact ih _ (applyPulseCall_ok st c h)

lemma initial_pulse_ok : PulsePairOK initialLaserParams := by
  simp [PulsePairOK, initialLaserParams, calculateDutyCycle]
  norm_num

/-- C1: after every sequence of pulse-rate and pulse-width setter calls, the
stored pair has duty cycle at most 30.0001 percent, rate within 10 to
3,000,000 Hz, and width within 20 to 1000 ns. -/
theorem pulse_setters_duty_invariant (calls : List PulseCall) :
    calculateDutyCycle (runPulseCalls calls).pulseRate (runPulseCalls calls).pulseWidth
        ≤ 30.0001 ∧
      10 ≤ (runPulseCalls calls).pulseRate ∧ (runPulseCalls calls).pulseRate ≤ 3000000 ∧
      20 ≤ (runPulseCalls calls).pulseWidth ∧ (runPulseCalls calls).pulseWidth ≤ 1000 := by
  have h := foldl_applyPulseCall_ok calls initialLaserParams initial_pulse_ok
  obtain ⟨h1, h2, h3, h4, h5⟩ := h
  refine ⟨?_, h1, h2, h3, h4⟩
  calc calculateDutyCycle (runPulseCalls calls).pulseRate (runPulseCalls calls).pulseWidth
      ≤ 30 := h5
    _ ≤ 30.0001 := by norm_num

/-- C9: the pulse-rate setter stores exactly the input clamped to 10 to
3,000,000 Hz, and its rate-reduction fallback branch is unreachable, because
any clamped rate with the minimum 20 ns width gives duty cycle at most 6
percent. -/
theorem pulse_rate_setter_is_pure_clamp (st : LaserParams) (v : ℚ) :
    (handlePulseRateChange st v).pulseRate = min (max v 10) 3000000 ∧
      ¬ calculateDutyCycle (validateAndCorrectParameter v "pulseRate") 20 > 30 := by
  obtain ⟨hr1, hr2⟩ := validate_pulseRate_bounds v
  have hfb : ¬ calculateDutyCycle (validateAndCorrectParameter v "pulseRate") 20 > 30 := by
    simp only [calculateDutyCycle]
    push_neg
    linarith
  refine ⟨?_, hfb⟩
  rw [← validate_pulseRate_eq]
  simp only [handlePulseRateChange]
  split_ifs with hd
  · rfl
  · rfl

/-- C5 counterexample: with stored rate 2,000,000 Hz, the width setter called
with 500 ns stores width 500 ns, not the 150 ns the claim demands. -/
theorem width_setter_at_500_stores_width_500 :
    initialLaserParams.pulseRate = 2000000 ∧
      (handlePulseWidthChange initialLaserParams 500).pulseWidth = 500 ∧
      (500 : ℚ) ≠ 150 := by
  refine ⟨rfl, ?_, by norm_num⟩
  simp [handlePulseWidthChange, validateAndCorrectParameter, calculateDutyCycle,
    initialLaserParams] <;> norm_num

/-- C5 amended: with stored rate 2,000,000 Hz, the width setter called with
500 ns keeps the width at 500 ns and clamps the rate down to
floor(30e9 / (500*100)) = 600,000 Hz, for a duty cycle of exactly 30
percent. -/
theorem width_setter_at_500_clamps_rate :
    handlePulseWidthChange initialLaserParams 500 = ⟨600000, 500⟩ ∧
      (600000 : ℚ) = ((⌊(30 * 1000000000 : ℚ) / (500 * 100)⌋ : ℤ) : ℚ) ∧
      calculateDutyCycle 600000 500 = 30 := by
  refine ⟨?_, by norm_num, by norm_num [calculateDutyCycle]⟩
  simp [handlePulseWidthChange, validateAndCorrectParameter, calculateDutyCycle,
    initialLaserParams] <;> norm_num

lemma roundTo2_mono {a b : ℚ} (h : a ≤ b) : roundTo2 a ≤ roundTo2 b := by
  unfold roundTo2
  have hf : (⌊a * 100 + 1 / 2⌋ : ℤ) ≤ ⌊b * 100 + 1 / 2⌋ := Int.floor_le_floor (by linarith)
  have hfq : ((⌊a * 100 + 1 / 2⌋ : ℤ) : ℚ) ≤ ((⌊b * 100 + 1 / 2⌋ : ℤ) : ℚ) := by
    exact_mod_cast hf
  linarith

lemma roundTo2_lb (q : ℚ) : q - 1 / 200 ≤ roundTo2 q := by
  unfold roundTo2
  have h : q * 100 + 1 / 2 - 1 < ((⌊q * 100 + 1 / 2⌋ : ℤ) : ℚ) := Int.sub_one_lt_floor _
  linarith

/-- C7 counterexample: in micron units the committed value 4 is clamped up
to the converted lower bound and then rounded to two decimals, landing at
4.81, strictly below the lower bound 10000/2077.27. -/
theorem validate_micron_result_below_min :
    validateAndCorrectValue Units.um 4 VField.wavenumber = 481 / 100 ∧
      (481 / 100 : ℚ) < convertToMicrons 2077.27 := by
  constructor
  · simp [validateAndCorrectValue, convertToMicrons, roundTo2] <;> norm_num
  · norm_num [convertToMicrons]

/-- C7 amended: the validator clamps into the unit-aware bounds, except that
in micron units the two-decimal rounding may land up to 1/200 below the
converted lower bound; the upper bound always holds. -/
theorem validate_wavenumber_bounds (value : ℚ) :
    (1638.81 ≤ validateAndCorrectValue Units.cm1 value VField.wavenumber ∧
      validateAndCorrectValue Units.cm1 value VField.wavenumber ≤ 2077.27) ∧
    (convertToMicrons 2077.27 - 1 / 200 ≤ validateAndCorrectValue Units.um value VField.wavenumber ∧
      validateAndCorrectValue Units.um value VField.wavenumber ≤ convertToMicrons 1638.81) := by
  constructor
  · simp [validateAndCorrectValue]
    split_ifs <;> constructor <;> linarith
  · have hmn : convertToMicrons 2077.27 ≤ convertToMicrons 1638.81 := by
      norm_num [convertToMicrons]
    have h1 := roundTo2_lb (convertToMicrons 1638.81)
    have h2 := roundTo2_lb (convertToMicrons 2077.27)
    have hrmax : roundTo2 (convertToMicrons 1638.81) ≤ convertToMicrons 1638.81 := by
      norm_num [roundTo2, convertToMicrons]
    have hrmn : roundTo2 (convertToMicrons 2077.27) ≤ convertToMicrons 1638.81 := by
      norm_num [roundTo2, convertToMicrons]
    simp [validateAndCorrectValue]
    split_ifs with hgt hlt
    · constructor <;> linarith
    · constructor <;> linarith
    · have h3 := roundTo2_lb value
      have h4 := roundTo2_mono (show value ≤ convertToMicrons 1638.81 by linarith)
      constructor <;> linarith

/-- C8 counterexample: with a single entry in the table, removing it by id
empties the list instead of being a no-op. -/
theorem remove_single_entry_empties_list :
    removeMultiSpectralEntry [⟨1, 1700, 100, 100⟩] 1 = [] ∧
      ([] : List MultiSpectralEntry) ≠ [⟨1, 1700, 100, 100⟩] := by
  constructor
  · simp [removeMultiSpectralEntry]
  · simp

/-- C8 amended: the remove handler has no minimum-size guard; it keeps, in
order, exactly the entries whose id differs from the given one, whatever the
list size. -/
theorem remove_entry_filters (entries : List MultiSpectralEntry) (eid : ℚ) :
    (removeMultiSpectralEntry entries eid).Sublist entries ∧
      ∀ e, e ∈ removeMultiSpectralEntry entries eid ↔ e ∈ entries ∧ e.id ≠ eid := by
  constructor
  · exact List.filter_sublist _
  · intro e
    simp [removeMultiSpectralEntry]

/-- C10 counterexample: updating the field named id of a matched entry
changes that entry's id, against the claim that every entry's id is
unchanged. -/
theorem update_entry_can_change_id :
    updateMultiSpectralEntry Units.cm1 [⟨1, 1700, 100, 100⟩] 1 MSField.id 5 =
        [⟨5, 1700, 100, 100⟩] ∧
      (5 : ℚ) ≠ 1 := by
  constructor
  · simp [updateMultiSpectralEntry, setMSField]
  · norm_num

lemma getMSField_setMSField {f field : MSField} (h : f ≠ field) (v : ℚ)
    (e : MultiSpectralEntry) : getMSField f (setMSField field v e) = getMSField f e := by
  cases f <;> cases field <;> simp_all [getMSField, setMSField]

lemma updateMultiSpectralEntry_eq_map (units : Units) (entries : List MultiSpectralEntry)
    (eid : ℚ) (field : MSField) (value : ℚ) :
    updateMultiSpectralEntry units entries eid field value =
      entries.map fun e =>
        if e.id = eid then setMSField field (msCorrectedValue units field value) e else e := rfl

/-- C10 amended: the update handler preserves the list length and order,
leaves every entry with a different id entirely unchanged, leaves every
field other than the named one unchanged on every entry (so ids are
unchanged whenever the named field is not the id field), and is the
identity when no entry carries the given id. -/
theorem update_entry_frame (units : Units) (entries : List MultiSpectralEntry)
    (eid : ℚ) (field : MSField) (value : ℚ) :
    (updateMultiSpectralEntry units entries eid field value).length = entries.length ∧
      (∀ i (h1 : i < entries.length)
          (h2 : i < (updateMultiSpectralEntry units entries eid field value).length),
        ((entries.get ⟨i, h1⟩).id ≠ eid →
          (updateMultiSpectralEntry units entries eid field value).get ⟨i, h2⟩ =
            entries.get ⟨i, h1⟩) ∧
        (∀ f, f ≠ field →
          getMSField f ((updateMultiSpectralEntry units entries eid field value).get ⟨i, h2⟩) =
            getMSField f (entries.get ⟨i, h1⟩))) ∧
      ((∀ e ∈ entries, e.id ≠ eid) →
        updateMultiSpectralEntry units entries eid field value = entries) := by
  refine ⟨?_, ?_, ?_⟩
  · rw [updateMultiSpectralEntry_eq_map]
    exact List.length_map _ _
  · intro i h1 h2
    have hget : (updateMultiSpectralEntry units entries eid field value).get ⟨i, h2⟩ =
        if (entries.get ⟨i, h1⟩).id = eid then
          setMSField field (msCorrectedValue units field value) (entries.get ⟨i, h1⟩)
        else entries.get ⟨i, h1⟩ := by
      simp [updateMultiSpectralEntry_eq_map, List.getElem_map]
    constructor
    · intro hne
      rw [hget, if_neg hne]
    · intro f hf
      rw [hget]
      by_cases hid : (entries.get ⟨i, h1⟩).id = eid
      · rw [if_pos hid]
        exact getMSField_setMSField hf _ _
      · rw [if_neg hid]
  · intro hall
    rw [updateMultiSpectralEntry_eq_map]
    conv_rhs => rw [← List.map_id entries]
    apply List.map_congr_left
    intro e he
    simp [hall e he]


/-- C10 witness: the frame conditions applied at a concrete one-entry list,
for an unmatched id and for a matched entry with a non-id field. -/
theorem update_entry_frame_app :
    updateMultiSpectralEntry Units.cm1 [⟨1, 1700, 100, 100⟩] 2 MSField.dwellTime 5 =
        [⟨1, 1700, 100, 100⟩] ∧
      getMSField MSField.offTime
        ((updateMultiSpectralEntry Units.cm1 [⟨1, 1700, 100, 100⟩] 1 MSField.dwellTime 5).get
          ⟨0, by decide⟩) = 100 :=
  ⟨(update_entry_frame Units.cm1 [⟨1, 1700, 100, 100⟩] 2 MSField.dwellTime 5).2.2
      (by decide),
    (((update_entry_frame Units.cm1 [⟨1, 1700, 100, 100⟩] 1 MSField.dwellTime 5).2.1 0
          (by decide) (by decide)).2 MSField.offTime (by decide)).trans rfl⟩

/-- C4: in multispectral mode the start handler throws on fewer than two
entries, issuing no device call, and with two or more entries it issues the
multispectral start call. -/
theorem multispectral_start_guard (s : ScanSettings) (units : Units)
    (entries : List MultiSpectralEntry) (n : ℚ) (inf keep : Bool) :
    (entries.length < 2 →
      handleStartScan "multispectral" s units entries n inf keep =
        .error "Add at least two entries before starting a multispectral scan") ∧
    (2 ≤ entries.length →
      ∃ l scans, handleStartScan "multispectral" s units entries n inf keep =
        .ok (some (.startMultispectralScan l scans keep))) := by
  constructor
  · intro h
    simp [handleStartScan, h]
  · intro h
    refine ⟨entries.map (fun e =>
        ((if units = Units.um then convertToWavenumber e.wavenumber else e.wavenumber),
          e.dwellTime, e.offTime)),
      (if inf then 0 else if n > 0 then n else 1), ?_⟩
    simp [handleStartScan, Nat.not_lt.mpr h]

/-- C4 witness: with one entry the handler throws, with two entries it
issues the multispectral device call. -/
theorem multispectral_start_guard_app :
    (handleStartScan "multispectral" ⟨1850, 1900, 1, 1000, 10, 1, false, false⟩ Units.cm1
        [⟨1, 1700, 100, 100⟩] 1 false false =
      .error "Add at least two entries before starting a multispectral scan") ∧
    (∃ l scans, handleStartScan "multispectral" ⟨1850, 1900, 1, 1000, 10, 1, false, false⟩
        Units.cm1 [⟨1, 1700, 100, 100⟩, ⟨2, 1800, 100, 100⟩] 1 false false =
      .ok (some (.startMultispectralScan l scans false))) :=
  ⟨(multispectral_start_guard ⟨1850, 1900, 1, 1000, 10, 1, false, false⟩ Units.cm1
      [⟨1, 1700, 100, 100⟩] 1 false false).1 (by norm_num),
    (multispectral_start_guard ⟨1850, 1900, 1, 1000, 10, 1, false, false⟩ Units.cm1
      [⟨1, 1700, 100, 100⟩, ⟨2, 1800, 100, 100⟩] 1 false false).2 (by norm_num)⟩

set_option maxHeartbeats 1000000 in
lemma scanLoopStep_msElements (len : ℕ) (st : ScanLoopState) (t : TelemetrySample)
    (h1 : st.prevInProgress = true) (h2 : t.scanInProgress = true) :
    (scanLoopStep len st t).msElements = st.msElements := by
  simp only [scanLoopStep, h1, h2, Bool.true_eq_false, if_false]
  split_ifs <;> first | rfl | simp_all

set_option maxHeartbeats 1000000 in
lemma scanLoopStep_mono (len : ℕ) (st : ScanLoopState) (t : TelemetrySample)
    (hInv : MsTraceOK st) (h2 : t.scanInProgress = true)
    (hm : t.currentScanMode = some "multispectral") :
    st.loopCount ≤ (scanLoopStep len st t).loopCount ∧ MsTraceOK (scanLoopStep len st t) := by
  have hlc0 := hInv.2
  have hnr : ¬ (t.scanInProgress = false ∨
      (st.prevMode ≠ none ∧ t.currentScanMode ≠ none ∧ st.prevMode ≠ t.currentScanMode)) := by
    rcases hInv.1 with hpm | hpm <;> simp [h2, hm, hpm]
  constructor
  · simp only [scanLoopStep, h2, hm, hnr, if_neg, if_false, reduceIte]
    split_ifs <;> simp_all <;> linarith
  · refine ⟨Or.inr ?_, ?_⟩
    · simp [scanLoopStep, hm]
    · intro hfalse
      simp [scanLoopStep, h2] at hfalse

lemma scanLoopStates_chain (len : ℕ) (ts : List TelemetrySample) :
    ∀ st : ScanLoopState, MsTraceOK st →
      (∀ t ∈ ts, t.scanInProgress = true ∧ t.currentScanMode = some "multispectral") →
      List.Chain' (fun a b => a ≤ b)
        ((st :: scanLoopStates len st ts).map ScanLoopState.loopCount) := by
  induction ts with
  | nil =>
    intro st _ _
    simp [scanLoopStates]
  | cons t ts ih =>
    intro st hInv hall
    obtain ⟨hmono, hInv2⟩ :=
      scanLoopStep_mono len st t hInv (hall t (by simp)).1 (hall t (by simp)).2
    have hc := ih (scanLoopStep len st t) hInv2 fun x hx => hall x (List.mem_cons_of_mem t hx)
    simpa [scanLoopStates, List.chain'_cons] using ⟨hmono, hc⟩

lemma sweep_like_step (len : ℕ) (st : ScanLoopState) (m : String) (prevP curP : ℚ)
    (sn : Option ℚ) (hpi : st.prevInProgress = true) (hpm : st.prevMode = some m)
    (hm : m ≠ "multispectral") (hpp : st.prevPercent = some prevP) :
    (scanLoopStep len st ⟨true, some curP, sn, some m⟩).loopCount =
      (if (prevP > 80 ∧ curP < 30) ∨ prevP - curP > 50 then st.loopCount + 1
        else st.loopCount) ∧
    (scanLoopStep len st ⟨true, some curP, sn, some m⟩).prevPercent = some curP := by
  constructor
  · simp only [scanLoopStep, hpi, hpm, hpp]
    simp [hm]
  · simp [scanLoopStep]

/-- C2: for a multispectral scan the telemetry scan-number sequence 0..6
with 3 entries yields loop counts [1,1,1,2,2,2,3]; over any in-progress
multispectral telemetry trace with non-decreasing scan numbers the derived
loop count is non-decreasing; and the captured element count is never
re-read while a scan stays in progress. -/
theorem multispectral_loop_count_derivation :
    scanLoopCounts 3 ([0, 1, 2, 3, 4, 5, 6].map msSample) = [1, 1, 1, 2, 2, 2, 3] ∧
      (∀ (len : ℕ) (ts : List TelemetrySample),
        (∀ t ∈ ts, t.scanInProgress = true ∧ t.currentScanMode = some "multispectral") →
        List.Chain' (fun a b => a.currentScanNumber.getD 0 ≤ b.currentScanNumber.getD 0) ts →
        List.Chain' (fun a b : ℤ => a ≤ b) (scanLoopCounts len ts)) ∧
      (∀ (len : ℕ) (st : ScanLoopState) (t : TelemetrySample),
        st.prevInProgress = true → t.scanInProgress = true →
        (scanLoopStep len st t).msElements = st.msElements) := by
  refine ⟨?_, ?_, scanLoopStep_msElements⟩
  · have h0 : scanLoopStep 3 initialScanLoopState (msSample 0) =
        ⟨1, none, true, some 0, 3, some "multispectral"⟩ := by
      simp [scanLoopStep, msSample, initialScanLoopState]
    have h1 : scanLoopStep 3 ⟨1, none, true, some 0, 3, some "multispectral"⟩ (msSample 1) =
        ⟨1, none, true, some 0, 3, some "multispectral"⟩ := by
      simp [scanLoopStep, msSample] <;> norm_num
    have h2 : scanLoopStep 3 ⟨1, none, true, some 0, 3, some "multispectral"⟩ (msSample 2) =
        ⟨1, none, true, some 0, 3, some "multispectral"⟩ := by
      simp [scanLoopStep, msSample] <;> norm_num
    have h3 : scanLoopStep 3 ⟨1, none, true, some 0, 3, some "multispectral"⟩ (msSample 3) =
        ⟨2, none, true, some 0, 3, some "multispectral"⟩ := by
      simp [scanLoopStep, msSample] <;> norm_num
    have h4 : scanLoopStep 3 ⟨2, none, true, some 0, 3, some "multispectral"⟩ (msSample 4) =
        ⟨2, none, true, some 0, 3, some "multispectral"⟩ := by
      simp [scanLoopStep, msSample] <;> norm_num
    have h5 : scanLoopStep 3 ⟨2, none, true, some 0, 3, some "multispectral"⟩ (msSample 5) =
        ⟨2, none, true, some 0, 3, some "multispectral"⟩ := by
      simp [scanLoopStep, msSample] <;> norm_num
    have h6 : scanLoopStep 3 ⟨2, none, true, some 0, 3, some "multispectral"⟩ (msSample 6) =
        ⟨3, none, true, some 0, 3, some "multispectral"⟩ := by
      simp [scanLoopStep, msSample] <;> norm_num
    simp [scanLoopCounts, scanLoopStates, h0, h1, h2, h3, h4, h5, h6]
  · intro len ts hall _
    have hch := scanLoopStates_chain len ts initialScanLoopState
      (by constructor <;> simp [initialScanLoopState, MsTraceOK]) hall
    have := hch.tail
    simpa [scanLoopCounts, initialScanLoopState] using this

/-- C2 witness: the monotonicity and captured-element-count parts applied at
concrete inputs. -/
theorem multispectral_loop_count_derivation_app :
    List.Chain' (fun a b : ℤ => a ≤ b) (scanLoopCounts 3 [msSample 0, msSample 0, msSample 0]) ∧
      (scanLoopStep 3 ⟨1, none, true, some 0, 3, some "multispectral"⟩ (msSample 1)).msElements =
        (⟨1, none, true, some 0, 3, some "multispectral"⟩ : ScanLoopState).msElements :=
  ⟨multispectral_loop_count_derivation.2.1 3 [msSample 0, msSample 0, msSample 0]
      (by decide) (by simp [msSample]),
    multispectral_loop_count_derivation.2.2 3
      ⟨1, none, true, some 0, 3, some "multispectral"⟩ (msSample 1) rfl rfl⟩

/-- C3: for a sweep scan the percent sequence [10,50,90,15,60] yields loop
counts [1,1,1,2,2]; on every in-progress non-multispectral sample after the
first, the loop count is incremented exactly when the wraparound condition
holds of the previous and current percent, and the current percent is always
stored as the new previous-percent reference. -/
theorem sweep_loop_count_increment :
    scanLoopCounts 0 ([10, 50, 90, 15, 60].map sweepSample) = [1, 1, 1, 2, 2] ∧
      ∀ (len : ℕ) (st : ScanLoopState) (m : String) (prevP curP : ℚ) (sn : Option ℚ),
        st.prevInProgress = true → st.prevMode = some m → m ≠ "multispectral" →
        st.prevPercent = some prevP →
        (scanLoopStep len st ⟨true, some curP, sn, some m⟩).loopCount =
          (if (prevP > 80 ∧ curP < 30) ∨ prevP - curP > 50 then st.loopCount + 1
            else st.loopCount) ∧
        (scanLoopStep len st ⟨true, some curP, sn, some m⟩).prevPercent = some curP := by
  constructor
  · simp [scanLoopCounts, scanLoopStates, scanLoopStep, initialScanLoopState, sweepSample] <;>
      norm_num
  · intro len st m prevP curP sn hpi hpm hm hpp
    exact sweep_like_step len st m prevP curP sn hpi hpm hm hpp

/-- C3 witness: the wraparound increment applied at a concrete in-progress
sweep state, detecting the 90 to 15 drop. -/
theorem sweep_loop_count_increment_app :
    (scanLoopStep 0 ⟨1, some 90, true, none, 0, some "sweep"⟩
        ⟨true, some 15, none, some "sweep"⟩).loopCount =
      (if ((90 : ℚ) > 80 ∧ (15 : ℚ) < 30) ∨ (90 : ℚ) - 15 > 50 then (1 : ℤ) + 1 else 1) ∧
    (scanLoopStep 0 ⟨1, some 90, true, none, 0, some "sweep"⟩
        ⟨true, some 15, none, some "sweep"⟩).prevPercent = some 15 :=
  sweep_loop_count_increment.2 0 ⟨1, some 90, true, none, 0, some "sweep"⟩ "sweep" 90 15 none
    rfl rfl (by decide) rfl

/-- C6 counterexample: a stop sample observed right after a started scan
resets the displayed loop count from 1 to 0, instead of leaving it at its
last value. -/
theorem stop_sample_resets_loop_count :
    (scanLoopStep 0 initialScanLoopState (sweepSample 10)).loopCount = 1 ∧
      (scanLoopStep 0 (scanLoopStep 0 initialScanLoopState (sweepSample 10))
        ⟨false, none, none, some "sweep"⟩).loopCount = 0 ∧
      (0 : ℤ) ≠ 1 := by
  have hstart : scanLoopStep 0 initialScanLoopState (sweepSample 10) =
      ⟨1, some 10, true, none, 0, some "sweep"⟩ := by
    simp [scanLoopStep, sweepSample, initialScanLoopState]
  refine ⟨by rw [hstart], ?_, by decide⟩
  rw [hstart]
  simp [scanLoopStep]

/-- C6 amended: on any sample with the scan no longer in progress the effect
resets the loop count to 0, clears the baseline, and stores the sample
percent as the previous-percent reference; the next start sets the loop
count to 1. -/
theorem stop_resets_start_sets_one :
    (∀ (len : ℕ) (st : ScanLoopState) (t : TelemetrySample), t.scanInProgress = false →
      (scanLoopStep len st t).loopCount = 0 ∧
        (scanLoopStep len st t).msBaselineScanNum = none ∧
        (scanLoopStep len st t).prevPercent = t.currentScanPercent) ∧
    (∀ (len : ℕ) (st : ScanLoopState) (t : TelemetrySample),
      st.prevInProgress = false → t.scanInProgress = true →
      (scanLoopStep len st t).loopCount = 1) := by
  constructor
  · intro len st t hstop
    refine ⟨?_, ?_, ?_⟩ <;>
      · simp only [scanLoopStep, hstop]
        rcases htp : t.currentScanPercent with _ | p <;> simp [htp]
  · intro len st t hpi hrun
    simp only [scanLoopStep, hpi, hrun]
    split_ifs <;> rfl

/-- C6 amended witness: the reset and the start-to-one behaviour applied at
concrete inputs. -/
theorem stop_resets_start_sets_one_app :
    ((scanLoopStep 0 ⟨2, some 80, true, some 0, 3, some "sweep"⟩
        ⟨false, none, none, some "sweep"⟩).loopCount = 0 ∧
      (scanLoopStep 0 ⟨2, some 80, true, some 0, 3, some "sweep"⟩
        ⟨false, none, none, some "sweep"⟩).msBaselineScanNum = none ∧
      (scanLoopStep 0 ⟨2, some 80, true, some 0, 3, some "sweep"⟩
        ⟨false, none, none, some "sweep"⟩).prevPercent = none) ∧
    (scanLoopStep 0 initialScanLoopState (sweepSample 10)).loopCount = 1 :=
  ⟨stop_resets_start_sets_one.1 0 ⟨2, some 80, true, some 0, 3, some "sweep"⟩
      ⟨false, none, none, some "sweep"⟩ rfl,
    stop_resets_start_sets_one.2 0 initialScanLoopState (sweepSample 10) rfl rfl⟩

end ControlSystem
